import Mathlib

/-!
Shallow embedding of `serial/open_darwin.go` from tsechin/go-serial.

The file models the private darwin implementation of serial-port opening:
the `termios` record, the `convertOptions` translator from an
`OpenOptions` configuration to a `termios` record, the `setTermios`
attribute applier, and `openInternal`, which opens the device, clears the
non-blocking flag, translates the options and applies them.

OS interaction (open, fcntl, ioctl) is modelled by an environment
`OsEnv` fixing each syscall's outcome, and `openInternal` additionally
returns the list of OS calls it performed, in order, so that ordering
and descriptor-leak properties can be stated.
-/

namespace Serial

/-- `sys/termios.h` constant: character-size mask for 5 data bits. -/
def CS5 : Nat := 0x00000000

/-- `sys/termios.h` constant: character-size mask for 6 data bits. -/
def CS6 : Nat := 0x00000100

/-- `sys/termios.h` constant: character-size mask for 7 data bits. -/
def CS7 : Nat := 0x00000200

/-- `sys/termios.h` constant: character-size mask for 8 data bits. -/
def CS8 : Nat := 0x00000300

/-- `sys/termios.h` constant: ignore modem control lines. -/
def CLOCAL : Nat := 0x00008000

/-- `sys/termios.h` constant: enable receiver. -/
def CREAD : Nat := 0x00000800

/-- `sys/termios.h` constant: ignore parity errors. -/
def IGNPAR : Nat := 0x00000004

/-- Number of control characters in a `termios` record. -/
def NCCS : Nat := 20

/-- Index of the "minimum bytes per read" control character. -/
def VMIN : Nat := 16

/-- Index of the "inter-byte timeout" control character. -/
def VTIME : Nat := 17

/-- The `termios` struct of `sys/termios.h` as declared in the source:
input flags, output flags, control flags, local flags, `NCCS` control
characters, input speed and output speed.  `tcflag_t` and `speed_t` are
64-bit unsigned integers and `cc_t` is a byte; every value the code
stores fits well inside those ranges, so plain naturals model them. -/
structure termios where
  c_iflag : Nat
  c_oflag : Nat
  c_cflag : Nat
  c_lflag : Nat
  c_cc : List Nat
  c_ispeed : Nat
  c_ospeed : Nat
deriving DecidableEq, Repr

/-- `var result termios` in Go: a zero-valued record. -/
def termios.zeroed : termios :=
  { c_iflag := 0, c_oflag := 0, c_cflag := 0, c_lflag := 0,
    c_cc := List.replicate NCCS 0, c_ispeed := 0, c_ospeed := 0 }

/-- The `OpenOptions` configuration structure.  Its declaration lives in
a sibling file of the repository; the fields used by
`serial/open_darwin.go` are `PortName`, `BaudRate` and `DataBits`. -/
structure OpenOptions where
  portName : String
  baudRate : Nat
  dataBits : Nat
deriving DecidableEq, Repr

/-- Go's `os.Error` values as produced by this file: either
`os.NewError(msg)` or `os.NewSyscallError(call, errno)` with a nonzero
errno (`os.NewSyscallError` returns nil when errno is 0, so only the
nonzero case ever materialises as an error). -/
inductive OsError where
  | newError (msg : String)
  | syscallError (call : String) (errno : Nat)
deriving DecidableEq, Repr

/-- The exact list of baud rates accepted by the `switch options.BaudRate`
statement of `convertOptions` (each listed case has an empty body and the
default returns an error, so the switch is a membership test). -/
def validBaudRates : List Nat :=
  [50, 75, 110, 134, 150, 200, 300, 600, 1200, 1800, 2400, 4800, 7200,
   9600, 14400, 19200, 28800, 38400, 57600, 76800, 115200, 230400]

/-- `convertOptions` from `serial/open_darwin.go`: translate an
`OpenOptions` into a `termios` record or fail with an `os.Error`.
The Go body starts from a zeroed record, ORs `CLOCAL` and `CREAD` into
the control flags, ORs `IGNPAR` into the input flags, sets
`c_cc[VTIME] = 0` and `c_cc[VMIN] = 1`, validates the baud rate against
the enumerated switch, copies it into both speed fields, then switches
on the data bits to OR in one size mask. -/
def convertOptions (options : OpenOptions) : Except OsError termios :=
  let result := termios.zeroed
  let result := { result with c_cflag := result.c_cflag ||| CLOCAL }
  let result := { result with c_cflag := result.c_cflag ||| CREAD }
  let result := { result with c_iflag := result.c_iflag ||| IGNPAR }
  let result := { result with c_cc := result.c_cc.set VTIME 0 }
  let result := { result with c_cc := result.c_cc.set VMIN 1 }
  if options.baudRate ∈ validBaudRates then
    let result := { result with c_ispeed := options.baudRate,
                                c_ospeed := options.baudRate }
    match options.dataBits with
    | 5 => .ok { result with c_cflag := result.c_cflag ||| CS5 }
    | 6 => .ok { result with c_cflag := result.c_cflag ||| CS6 }
    | 7 => .ok { result with c_cflag := result.c_cflag ||| CS7 }
    | 8 => .ok { result with c_cflag := result.c_cflag ||| CS8 }
    | _ => .error (.newError "Invalid setting for DataBits.")
  else
    .error (.newError "Invalid setting for BaudRate.")

deriving instance DecidableEq for Except

/-- Outcomes the operating system gives to each syscall the open sequence
can make: the result of `os.OpenFile` (a descriptor or an error), and the
`(r1, errno)` pair returned by the `SYS_FCNTL` and `SYS_IOCTL` syscalls. -/
structure OsEnv where
  openResult : Except OsError Nat
  fcntlR1 : Nat
  fcntlErrno : Nat
  ioctlR1 : Nat
  ioctlErrno : Nat
deriving DecidableEq, Repr

/-- One OS call observable from `serial/open_darwin.go`: opening the
device file, the `SYS_FCNTL` flag call, the `SYS_IOCTL` set-attributes
call, and closing a descriptor (`file.Close()` — available to the code,
whether or not it is ever called). -/
inductive OsCall where
  | openFile (path : String)
  | fcntl (fd : Nat)
  | ioctlSet (fd : Nat)
  | close (fd : Nat)
deriving DecidableEq, Repr

/-- Whether an `OsCall` is a close of some descriptor. -/
def OsCall.isClose : OsCall → Bool
  | .close _ => true
  | _ => false

/-- Whether an `OsCall` is a set-attributes ioctl. -/
def OsCall.isIoctlSet : OsCall → Bool
  | .ioctlSet _ => true
  | _ => false

/-- `setTermios` from `serial/open_darwin.go`: push a `termios` record
onto a descriptor with the `TIOCSETA` ioctl.  The Go code first builds
`os.NewSyscallError("SYS_IOCTL", int(errno))`, which is an error exactly
when errno is nonzero, and returns it; then, "just in case", it checks
the primary return value `r1` and fails with a fresh error when it is
nonzero; otherwise it returns nil. -/
def setTermios (fd : Nat) (src : termios) (env : OsEnv) : Except OsError Unit :=
  let _ := fd
  let _ := src
  if env.ioctlErrno ≠ 0 then
    .error (.syscallError "SYS_IOCTL" env.ioctlErrno)
  else if env.ioctlR1 ≠ 0 then
    .error (.newError "Unknown error from SYS_IOCTL.")
  else
    .ok ()

/-- The flag-clearing step of `openInternal`, verbatim from the source:
`syscall.Syscall(SYS_FCNTL, fd, F_SETFL, 0)` followed by
`os.NewSyscallError("SYS_IOCTL", int(errno))` (an error exactly when
errno is nonzero; the source labels this wrapper "SYS_IOCTL" even though
the call is `SYS_FCNTL`), then the defensive check of `r1`. -/
def clearNonBlockingFlag (env : OsEnv) : Except OsError Unit :=
  if env.fcntlErrno ≠ 0 then
    .error (.syscallError "SYS_IOCTL" env.fcntlErrno)
  else if env.fcntlR1 ≠ 0 then
    .error (.newError "Unknown error from SYS_FCNTL.")
  else
    .ok ()

/-- `openInternal` from `serial/open_darwin.go`, instrumented with the
ordered list of OS calls it performs.  The Go code: open the device with
`O_RDWR|O_NOCTTY|O_NONBLOCK` (returning the error on failure); clear the
non-blocking flag with `SYS_FCNTL(fd, F_SETFL, 0)` (see
`clearNonBlockingFlag`); translate the options with `convertOptions`,
returning its error on failure; apply them with `setTermios`, returning
its error on failure; finally return the open file.  No path calls
`file.Close()`. -/
def openInternal (options : OpenOptions) (env : OsEnv) :
    Except OsError Nat × List OsCall :=
  match env.openResult with
  | .error err => (.error err, [.openFile options.portName])
  | .ok fd =>
    let trace := [OsCall.openFile options.portName, OsCall.fcntl fd]
    match clearNonBlockingFlag env with
    | .error err => (.error err, trace)
    | .ok _ =>
      match convertOptions options with
      | .error err => (.error err, trace)
      | .ok terminalOptions =>
        let trace := trace ++ [OsCall.ioctlSet fd]
        match setTermios fd terminalOptions env with
        | .error err => (.error err, trace)
        | .ok _ => (.ok fd, trace)

end Serial

namespace Serial

/-- The control-character array carried by every record `convertOptions`
returns: all `NCCS = 20` entries zero except index `VMIN = 16`, set to 1
(index `VTIME = 17` is set to 0). -/
def fixedCC : List Nat := [0, 0, 0, 0, 0, 0, 0, 0, 0, 0, 0, 0, 0, 0, 0, 0, 1, 0, 0, 0]

/-- The character-size mask the data-bits switch of `convertOptions`
selects (meaningful on 5, 6, 7 and 8; other values never reach the OR). -/
def sizeMask : Nat → Nat
  | 5 => CS5
  | 6 => CS6
  | 7 => CS7
  | _ => CS8

/-- Inversion: a record accepted by `convertOptions` comes from a valid
baud rate and data-bits value and has exactly this shape. -/
theorem convertOptions_ok (options : OpenOptions) (t : termios)
    (h : convertOptions options = .ok t) :
    options.baudRate ∈ validBaudRates ∧
    options.dataBits ∈ ([5, 6, 7, 8] : List Nat) ∧
    t = { c_iflag := IGNPAR, c_oflag := 0,
          c_cflag := CLOCAL ||| CREAD ||| sizeMask options.dataBits,
          c_lflag := 0, c_cc := fixedCC,
          c_ispeed := options.baudRate, c_ospeed := options.baudRate } := by
  obtain ⟨p, baud, bits⟩ := options
  unfold convertOptions at h
  split at h
  · rename_i hbaud
    split at h
    · rename_i x heq
      have hb : bits = 5 := heq
      subst hb
      simp only [termios.zeroed, Except.ok.injEq] at h
      subst h
      refine ⟨hbaud, by simp, ?_⟩
      simp [sizeMask, fixedCC, NCCS, VMIN, VTIME, List.replicate]
    · rename_i x heq
      have hb : bits = 6 := heq
      subst hb
      simp only [termios.zeroed, Except.ok.injEq] at h
      subst h
      refine ⟨hbaud, by simp, ?_⟩
      simp [sizeMask, fixedCC, NCCS, VMIN, VTIME, List.replicate]
    · rename_i x heq
      have hb : bits = 7 := heq
      subst hb
      simp only [termios.zeroed, Except.ok.injEq] at h
      subst h
      refine ⟨hbaud, by simp, ?_⟩
      simp [sizeMask, fixedCC, NCCS, VMIN, VTIME, List.replicate]
    · rename_i x heq
      have hb : bits = 8 := heq
      subst hb
      simp only [termios.zeroed, Except.ok.injEq] at h
      subst h
      refine ⟨hbaud, by simp, ?_⟩
      simp [sizeMask, fixedCC, NCCS, VMIN, VTIME, List.replicate]
    · simp at h
  · exact Except.noConfusion h

/-- Construction: on a valid baud rate and data-bits value,
`convertOptions` succeeds with the canonical record. -/
theorem convertOptions_eq_ok (p : String) (baud bits : Nat)
    (hbaud : baud ∈ validBaudRates) (hbits : bits ∈ ([5, 6, 7, 8] : List Nat)) :
    convertOptions { portName := p, baudRate := baud, dataBits := bits } =
      .ok { c_iflag := IGNPAR, c_oflag := 0,
            c_cflag := CLOCAL ||| CREAD ||| sizeMask bits,
            c_lflag := 0, c_cc := fixedCC,
            c_ispeed := baud, c_ospeed := baud } := by
  have hb : bits = 5 ∨ bits = 6 ∨ bits = 7 ∨ bits = 8 := by simpa using hbits
  unfold convertOptions
  rcases hb with rfl | rfl | rfl | rfl <;>
    simp [hbaud, sizeMask, fixedCC, termios.zeroed, NCCS, VMIN, VTIME, List.replicate]

/-- An out-of-set baud rate fails with the baud-rate error message. -/
theorem convertOptions_baud_error (p : String) (baud bits : Nat)
    (h : baud ∉ validBaudRates) :
    convertOptions { portName := p, baudRate := baud, dataBits := bits }
      = .error (.newError "Invalid setting for BaudRate.") := by
  unfold convertOptions
  simp [h]

/-- A valid baud rate with an out-of-set data-bits value fails with the
data-bits error message. -/
theorem convertOptions_bits_error (p : String) (baud bits : Nat)
    (hbaud : baud ∈ validBaudRates) (h : bits ∉ ([5, 6, 7, 8] : List Nat)) :
    convertOptions { portName := p, baudRate := baud, dataBits := bits }
      = .error (.newError "Invalid setting for DataBits.") := by
  unfold convertOptions
  split
  · split
    · rename_i x heq
      exact absurd (by simp [show bits = 5 from heq]) h
    · rename_i x heq
      exact absurd (by simp [show bits = 6 from heq]) h
    · rename_i x heq
      exact absurd (by simp [show bits = 7 from heq]) h
    · rename_i x heq
      exact absurd (by simp [show bits = 8 from heq]) h
    · rfl
  · rename_i hb
    exact absurd hbaud hb

/-- An invalid configuration always yields a validation error. -/
theorem convertOptions_invalid (options : OpenOptions)
    (h : options.baudRate ∉ validBaudRates ∨
         options.dataBits ∉ ([5, 6, 7, 8] : List Nat)) :
    ∃ msg, convertOptions options = .error (.newError msg) := by
  obtain ⟨p, baud, bits⟩ := options
  by_cases hbaud : baud ∈ validBaudRates
  · rcases h with h | h
    · exact absurd hbaud h
    · exact ⟨_, convertOptions_bits_error p baud bits hbaud h⟩
  · exact ⟨_, convertOptions_baud_error p baud bits hbaud⟩

end Serial

namespace Serial

/-- Case description of `openInternal`: result and trace in each of the
five outcomes of the open sequence. -/
theorem openInternal_cases (options : OpenOptions) (env : OsEnv) :
    (∃ err, env.openResult = .error err ∧
       openInternal options env = (.error err, [.openFile options.portName])) ∨
    (∃ fd, env.openResult = .ok fd ∧
      ((∃ err, clearNonBlockingFlag env = .error err ∧
          openInternal options env
            = (.error err, [.openFile options.portName, .fcntl fd])) ∨
       (clearNonBlockingFlag env = .ok () ∧
         ((∃ err, convertOptions options = .error err ∧
             openInternal options env
               = (.error err, [.openFile options.portName, .fcntl fd])) ∨
          (∃ t, convertOptions options = .ok t ∧
            ((∃ err, setTermios fd t env = .error err ∧
                openInternal options env
                  = (.error err,
                     [.openFile options.portName, .fcntl fd, .ioctlSet fd])) ∨
             (setTermios fd t env = .ok () ∧
               openInternal options env
                 = (.ok fd,
                    [.openFile options.portName, .fcntl fd, .ioctlSet fd])))))))) := by
  unfold openInternal
  cases henv : env.openResult with
  | error err => exact Or.inl ⟨err, rfl, rfl⟩
  | ok fd =>
    refine Or.inr ⟨fd, rfl, ?_⟩
    cases hflag : clearNonBlockingFlag env with
    | error err => exact Or.inl ⟨err, rfl, rfl⟩
    | ok u =>
      cases u
      refine Or.inr ⟨rfl, ?_⟩
      cases hconv : convertOptions options with
      | error err => exact Or.inl ⟨err, rfl, rfl⟩
      | ok t =>
        refine Or.inr ⟨t, rfl, ?_⟩
        simp only []
        cases hset : setTermios fd t env with
        | error err => exact Or.inl ⟨err, rfl, rfl⟩
        | ok v =>
          cases v
          exact Or.inr ⟨rfl, rfl⟩

/-- The trace of `openInternal` is one of three shapes, none containing a
close call. -/
theorem openInternal_trace_shapes (options : OpenOptions) (env : OsEnv) :
    (openInternal options env).2 = [.openFile options.portName] ∨
    (∃ fd,
      (openInternal options env).2 = [.openFile options.portName, .fcntl fd] ∨
      (openInternal options env).2
        = [.openFile options.portName, .fcntl fd, .ioctlSet fd]) := by
  rcases openInternal_cases options env with
    ⟨err, -, heq⟩ |
    ⟨fd, -, ⟨err, -, heq⟩ | ⟨-, ⟨err, -, heq⟩ | ⟨t, -, ⟨err, -, heq⟩ | ⟨-, heq⟩⟩⟩⟩
  · exact Or.inl (by rw [heq])
  · exact Or.inr ⟨fd, Or.inl (by rw [heq])⟩
  · exact Or.inr ⟨fd, Or.inl (by rw [heq])⟩
  · exact Or.inr ⟨fd, Or.inr (by rw [heq])⟩
  · exact Or.inr ⟨fd, Or.inr (by rw [heq])⟩

end Serial

namespace Serial

/-- C1: the spec requires that when the open sequence fails after the
device descriptor was successfully opened, the descriptor is closed
before the error is returned.  The code never closes it: no execution of
`openInternal` ever performs a close call, and in particular when the
open succeeds (descriptor 3) and the flag-clear call fails with errno 5,
the sequence returns that error with the descriptor left open. -/
theorem C1_descriptor_never_closed :
    (∀ (options : OpenOptions) (env : OsEnv),
        ∀ c ∈ (openInternal options env).2, c.isClose = false) ∧
    openInternal { portName := "/dev/cu.usbserial", baudRate := 9600, dataBits := 8 }
        { openResult := .ok 3, fcntlR1 := 0, fcntlErrno := 5,
          ioctlR1 := 0, ioctlErrno := 0 }
      = (.error (.syscallError "SYS_IOCTL" 5),
         [.openFile "/dev/cu.usbserial", .fcntl 3]) := by
  constructor
  · intro options env c hc
    rcases openInternal_trace_shapes options env with heq | ⟨fd, heq | heq⟩ <;>
      rw [heq] at hc <;> simp at hc
    · subst hc; rfl
    · rcases hc with rfl | rfl <;> rfl
    · rcases hc with rfl | rfl | rfl <;> rfl
  · decide

/-- C2 counterexample: with BaudRate 12345 (invalid) the open sequence
still performs the device-open OS call and the descriptor-flag OS call
before rejecting the configuration with the baud-rate error, so the
claim "no OS call is ever made for an invalid configuration" is false. -/
theorem C2_counterexample :
    (openInternal { portName := "/dev/cu.usbserial", baudRate := 12345, dataBits := 8 }
        { openResult := .ok 3, fcntlR1 := 0, fcntlErrno := 0,
          ioctlR1 := 0, ioctlErrno := 0 }).1
      = .error (.newError "Invalid setting for BaudRate.") ∧
    OsCall.openFile "/dev/cu.usbserial"
      ∈ (openInternal { portName := "/dev/cu.usbserial", baudRate := 12345, dataBits := 8 }
          { openResult := .ok 3, fcntlR1 := 0, fcntlErrno := 0,
            ioctlR1 := 0, ioctlErrno := 0 }).2 ∧
    OsCall.fcntl 3
      ∈ (openInternal { portName := "/dev/cu.usbserial", baudRate := 12345, dataBits := 8 }
          { openResult := .ok 3, fcntlR1 := 0, fcntlErrno := 0,
            ioctlR1 := 0, ioctlErrno := 0 }).2 := by
  decide

/-- C2 (amended): an invalid configuration is rejected with the
validation error before the attribute-set call — no set-attributes OS
call ever occurs and no handle is ever returned — but the rejection
happens only after the device open and the descriptor-flag call. -/
theorem C2_invalid_rejected_before_attribute_call
    (options : OpenOptions) (env : OsEnv)
    (h : options.baudRate ∉ validBaudRates ∨
         options.dataBits ∉ ([5, 6, 7, 8] : List Nat)) :
    (∀ c ∈ (openInternal options env).2, c.isIoctlSet = false) ∧
    (∀ g, (openInternal options env).1 ≠ .ok g) ∧
    (∀ fd, env.openResult = .ok fd → clearNonBlockingFlag env = .ok () →
      ∃ msg, convertOptions options = .error (.newError msg) ∧
        openInternal options env
          = (.error (.newError msg),
             [.openFile options.portName, .fcntl fd])) := by
  obtain ⟨msg, hconv⟩ := convertOptions_invalid options h
  rcases openInternal_cases options env with
    ⟨err, henv, heq⟩ |
    ⟨fd, henv, ⟨err, hflag, heq⟩ | ⟨hflag, ⟨err, hcv, heq⟩ | ⟨t, hcv, -⟩⟩⟩
  · refine ⟨?_, ?_, ?_⟩
    · intro c hc
      rw [heq] at hc
      simp at hc
      subst hc
      rfl
    · intro g
      rw [heq]
      simp
    · intro g hg
      rw [henv] at hg
      exact Except.noConfusion hg
  · refine ⟨?_, ?_, ?_⟩
    · intro c hc
      rw [heq] at hc
      simp at hc
      rcases hc with rfl | rfl <;> rfl
    · intro g
      rw [heq]
      simp
    · intro g hg hflag2
      rw [hflag] at hflag2
      exact Except.noConfusion hflag2
  · have herr : err = OsError.newError msg := by
      have := hcv.symm.trans hconv
      exact (Except.error.injEq _ _).mp this
    subst herr
    refine ⟨?_, ?_, ?_⟩
    · intro c hc
      rw [heq] at hc
      simp at hc
      rcases hc with rfl | rfl <;> rfl
    · intro g
      rw [heq]
      simp
    · intro g hg hflag2
      have hfd : g = fd := by
        have := henv.symm.trans hg
        exact ((Except.ok.injEq _ _).mp this).symm
      subst hfd
      exact ⟨msg, hconv, heq⟩
  · rw [hconv] at hcv
    exact Except.noConfusion hcv

/-- C2 amended, witness: at BaudRate 12345 with open succeeding on
descriptor 3 and a clean flag call, the sequence stops at validation. -/
theorem C2_invalid_rejected_before_attribute_call_witness :
    ∃ msg,
      convertOptions { portName := "/dev/cu.usbserial", baudRate := 12345, dataBits := 8 }
        = .error (.newError msg) ∧
      openInternal { portName := "/dev/cu.usbserial", baudRate := 12345, dataBits := 8 }
          { openResult := .ok 3, fcntlR1 := 0, fcntlErrno := 0,
            ioctlR1 := 0, ioctlErrno := 0 }
        = (.error (.newError msg), [.openFile "/dev/cu.usbserial", .fcntl 3]) :=
  (C2_invalid_rejected_before_attribute_call
      { portName := "/dev/cu.usbserial", baudRate := 12345, dataBits := 8 }
      { openResult := .ok 3, fcntlR1 := 0, fcntlErrno := 0,
        ioctlR1 := 0, ioctlErrno := 0 }
      (Or.inl (by decide))).2.2 3 rfl rfl

end Serial

namespace Serial

/-- C3: every baud rate in the enumerated set (with valid data bits)
is accepted with both speed fields set to the exact numeric rate; every
baud rate outside the set is rejected with the baud-rate error and no
record is produced. -/
theorem C3_baud_rate_translation (options : OpenOptions) :
    (options.baudRate ∈ validBaudRates →
      options.dataBits ∈ ([5, 6, 7, 8] : List Nat) →
      ∃ t, convertOptions options = .ok t ∧
        t.c_ispeed = options.baudRate ∧ t.c_ospeed = options.baudRate) ∧
    (options.baudRate ∉ validBaudRates →
      convertOptions options = .error (.newError "Invalid setting for BaudRate.")) := by
  obtain ⟨p, baud, bits⟩ := options
  exact ⟨fun hbaud hbits =>
           ⟨_, convertOptions_eq_ok p baud bits hbaud hbits, rfl, rfl⟩,
         fun hbaud => convertOptions_baud_error p baud bits hbaud⟩

/-- C4: every data-bits value in {5,6,7,8} selects exactly one of the
four size masks (OR'd into the control flags over the fixed modem and
receiver bits), the four masks are pairwise distinct, and any other
data-bits value (with a valid baud rate) is rejected with the data-bits
error. -/
theorem C4_data_bits_translation (options : OpenOptions) :
    (options.baudRate ∈ validBaudRates →
      options.dataBits ∈ ([5, 6, 7, 8] : List Nat) →
      ∃ t, convertOptions options = .ok t ∧
        t.c_cflag = CLOCAL ||| CREAD ||| sizeMask options.dataBits ∧
        sizeMask options.dataBits ∈ ([CS5, CS6, CS7, CS8] : List Nat) ∧
        (options.dataBits = 5 → sizeMask options.dataBits = CS5) ∧
        (options.dataBits = 6 → sizeMask options.dataBits = CS6) ∧
        (options.dataBits = 7 → sizeMask options.dataBits = CS7) ∧
        (options.dataBits = 8 → sizeMask options.dataBits = CS8)) ∧
    (CS5 ≠ CS6 ∧ CS5 ≠ CS7 ∧ CS5 ≠ CS8 ∧ CS6 ≠ CS7 ∧ CS6 ≠ CS8 ∧ CS7 ≠ CS8) ∧
    (options.baudRate ∈ validBaudRates →
      options.dataBits ∉ ([5, 6, 7, 8] : List Nat) →
      convertOptions options = .error (.newError "Invalid setting for DataBits.")) := by
  obtain ⟨p, baud, bits⟩ := options
  refine ⟨fun hbaud hbits =>
            ⟨_, convertOptions_eq_ok p baud bits hbaud hbits, rfl,
             ?_, ?_, ?_, ?_, ?_⟩,
          by decide,
          fun hbaud hbits => convertOptions_bits_error p baud bits hbaud hbits⟩
  · have hb : bits = 5 ∨ bits = 6 ∨ bits = 7 ∨ bits = 8 := by simpa using hbits
    rcases hb with rfl | rfl | rfl | rfl <;> simp [sizeMask]
  · intro h5
    have hb : bits = 5 := h5
    subst hb
    rfl
  · intro h6
    have hb : bits = 6 := h6
    subst hb
    rfl
  · intro h7
    have hb : bits = 7 := h7
    subst hb
    rfl
  · intro h8
    have hb : bits = 8 := h8
    subst hb
    rfl

end Serial

namespace Serial

/-- C5 counterexample: on the accepted configuration 9600/8 the
"minimum bytes" control character (index `VMIN`) is 1, not 0, and the
"inter-byte timeout" control character (index `VTIME`) is 0, not 1 — the
claim has the two values swapped. -/
theorem C5_counterexample :
    (convertOptions { portName := "/dev/cu.usbserial", baudRate := 9600, dataBits := 8
      }).map (fun t => (t.c_cc.get? VMIN, t.c_cc.get? VTIME))
      = .ok (some 1, some 0) := by
  decide

/-- C5 (amended): for every configuration accepted by `convertOptions`,
the "minimum bytes" control character equals 1 and the "inter-byte
timeout" control character equals 0, independent of the other
configuration values. -/
theorem C5_min_bytes_one_timeout_zero (options : OpenOptions) (t : termios)
    (h : convertOptions options = .ok t) :
    t.c_cc.get? VMIN = some 1 ∧ t.c_cc.get? VTIME = some 0 := by
  obtain ⟨-, -, rfl⟩ := convertOptions_ok options t h
  exact ⟨rfl, rfl⟩

/-- C5 amended, witness at 9600/8. -/
theorem C5_min_bytes_one_timeout_zero_witness :
    ∃ t, convertOptions { portName := "/dev/cu.usbserial", baudRate := 9600, dataBits := 8 }
        = .ok t ∧
      t.c_cc.get? VMIN = some 1 ∧ t.c_cc.get? VTIME = some 0 :=
  ⟨_, convertOptions_eq_ok "/dev/cu.usbserial" 9600 8 (by decide) (by decide),
   C5_min_bytes_one_timeout_zero
     { portName := "/dev/cu.usbserial", baudRate := 9600, dataBits := 8 } _
     (convertOptions_eq_ok "/dev/cu.usbserial" 9600 8 (by decide) (by decide))⟩

/-- C6: for every configuration accepted by `convertOptions`, the
"inter-byte timeout" control character `c_cc[VTIME]` equals 0 and the
"minimum bytes per read" control character `c_cc[VMIN]` equals 1,
independent of the other configuration values. -/
theorem C6_blocking_read_policy (options : OpenOptions) (t : termios)
    (h : convertOptions options = .ok t) :
    t.c_cc.get? VTIME = some 0 ∧ t.c_cc.get? VMIN = some 1 := by
  obtain ⟨-, -, rfl⟩ := convertOptions_ok options t h
  exact ⟨rfl, rfl⟩

/-- C6 witness at 19200/7. -/
theorem C6_blocking_read_policy_witness :
    ∃ t, convertOptions { portName := "/dev/cu.usbserial", baudRate := 19200, dataBits := 7 }
        = .ok t ∧
      t.c_cc.get? VTIME = some 0 ∧ t.c_cc.get? VMIN = some 1 :=
  ⟨_, convertOptions_eq_ok "/dev/cu.usbserial" 19200 7 (by decide) (by decide),
   C6_blocking_read_policy
     { portName := "/dev/cu.usbserial", baudRate := 19200, dataBits := 7 } _
     (convertOptions_eq_ok "/dev/cu.usbserial" 19200 7 (by decide) (by decide))⟩

/-- The fixed modem and receiver bits survive the OR with any of the
four size masks. -/
theorem fixedFlagFacts :
    ∀ b ∈ ([5, 6, 7, 8] : List Nat),
      (CLOCAL ||| CREAD ||| sizeMask b) &&& CLOCAL = CLOCAL ∧
      (CLOCAL ||| CREAD ||| sizeMask b) &&& CREAD = CREAD := by
  decide

/-- C7: every accepted record carries `CLOCAL` and `CREAD` in its
control flags and `IGNPAR` in its input flags; and configuration
9600/8 yields exactly the record with control flags
`CLOCAL ||| CREAD ||| CS8`, both speed fields 9600, timeout character 0
and min-bytes character 1. -/
theorem C7_fixed_flags (options : OpenOptions) (t : termios)
    (h : convertOptions options = .ok t) :
    (t.c_cflag &&& CLOCAL = CLOCAL ∧ t.c_cflag &&& CREAD = CREAD ∧
     t.c_iflag &&& IGNPAR = IGNPAR) ∧
    convertOptions { portName := options.portName, baudRate := 9600, dataBits := 8 }
      = .ok { c_iflag := IGNPAR, c_oflag := 0,
              c_cflag := CLOCAL ||| CREAD ||| CS8, c_lflag := 0,
              c_cc := fixedCC, c_ispeed := 9600, c_ospeed := 9600 } := by
  obtain ⟨p, baud, bits⟩ := options
  obtain ⟨hbaud, hbits, rfl⟩ := convertOptions_ok _ t h
  constructor
  · have hb : bits = 5 ∨ bits = 6 ∨ bits = 7 ∨ bits = 8 := by simpa using hbits
    rcases hb with rfl | rfl | rfl | rfl
    · exact ⟨(fixedFlagFacts 5 (by decide)).1, (fixedFlagFacts 5 (by decide)).2,
             (by decide : IGNPAR &&& IGNPAR = IGNPAR)⟩
    · exact ⟨(fixedFlagFacts 6 (by decide)).1, (fixedFlagFacts 6 (by decide)).2,
             (by decide : IGNPAR &&& IGNPAR = IGNPAR)⟩
    · exact ⟨(fixedFlagFacts 7 (by decide)).1, (fixedFlagFacts 7 (by decide)).2,
             (by decide : IGNPAR &&& IGNPAR = IGNPAR)⟩
    · exact ⟨(fixedFlagFacts 8 (by decide)).1, (fixedFlagFacts 8 (by decide)).2,
             (by decide : IGNPAR &&& IGNPAR = IGNPAR)⟩
  · exact convertOptions_eq_ok p 9600 8 (by decide) (by decide)

/-- C7 witness at 9600/8. -/
theorem C7_fixed_flags_witness :
    ∃ t, convertOptions { portName := "/dev/cu.usbserial", baudRate := 9600, dataBits := 8 }
        = .ok t ∧
      t.c_cflag &&& CLOCAL = CLOCAL ∧ t.c_cflag &&& CREAD = CREAD ∧
      t.c_iflag &&& IGNPAR = IGNPAR :=
  ⟨_, convertOptions_eq_ok "/dev/cu.usbserial" 9600 8 (by decide) (by decide),
   (C7_fixed_flags
     { portName := "/dev/cu.usbserial", baudRate := 9600, dataBits := 8 } _
     (convertOptions_eq_ok "/dev/cu.usbserial" 9600 8 (by decide) (by decide))).1⟩

end Serial

namespace Serial

/-- C8: the attribute applier fails with the syscall error exactly when
the control call reports a nonzero errno; with errno zero but a nonzero
primary return value it fails with the defensive unknown-error message;
and with both zero it succeeds with no other visible result. -/
theorem C8_set_termios_outcomes (fd : Nat) (t : termios) (env : OsEnv) :
    (env.ioctlErrno ≠ 0 →
      setTermios fd t env = .error (.syscallError "SYS_IOCTL" env.ioctlErrno)) ∧
    (env.ioctlErrno = 0 → env.ioctlR1 ≠ 0 →
      setTermios fd t env = .error (.newError "Unknown error from SYS_IOCTL.")) ∧
    (env.ioctlErrno = 0 → env.ioctlR1 = 0 → setTermios fd t env = .ok ()) := by
  refine ⟨fun h => ?_, fun h h1 => ?_, fun h h1 => ?_⟩ <;>
    simp [setTermios, h]
  · simp [h1]
  · simp [h1]

/-- C9: when the device open succeeds, the very next OS call is the
descriptor-flag call; that step fails exactly when the flag syscall
reports a nonzero errno (yielding the wrapped syscall error) or a
nonzero primary return value (yielding the unknown-error message), and
on such a failure `openInternal` returns that error with no handle. -/
theorem C9_flag_clear_step (options : OpenOptions) (env : OsEnv) (fd : Nat)
    (hopen : env.openResult = .ok fd) :
    ((openInternal options env).2.take 2
        = [OsCall.openFile options.portName, OsCall.fcntl fd]) ∧
    ((∃ e, clearNonBlockingFlag env = .error e) ↔
        (env.fcntlErrno ≠ 0 ∨ env.fcntlR1 ≠ 0)) ∧
    (env.fcntlErrno ≠ 0 →
        clearNonBlockingFlag env = .error (.syscallError "SYS_IOCTL" env.fcntlErrno)) ∧
    (env.fcntlErrno = 0 → env.fcntlR1 ≠ 0 →
        clearNonBlockingFlag env = .error (.newError "Unknown error from SYS_FCNTL.")) ∧
    (∀ e, clearNonBlockingFlag env = .error e →
        openInternal options env
          = (.error e, [OsCall.openFile options.portName, OsCall.fcntl fd])) := by
  have hflagiff : (∃ e, clearNonBlockingFlag env = .error e) ↔
      (env.fcntlErrno ≠ 0 ∨ env.fcntlR1 ≠ 0) := by
    constructor
    · rintro ⟨e, he⟩
      by_contra hcon
      push_neg at hcon
      simp [clearNonBlockingFlag, hcon.1, hcon.2] at he
    · rintro (h | h)
      · exact ⟨.syscallError "SYS_IOCTL" env.fcntlErrno,
               by simp [clearNonBlockingFlag, h]⟩
      · by_cases h0 : env.fcntlErrno ≠ 0
        · exact ⟨.syscallError "SYS_IOCTL" env.fcntlErrno,
                 by simp [clearNonBlockingFlag, h0]⟩
        · push_neg at h0
          exact ⟨.newError "Unknown error from SYS_FCNTL.",
                 by simp [clearNonBlockingFlag, h0, h]⟩
  have htail :
      ∀ e, clearNonBlockingFlag env = .error e →
        openInternal options env
          = (.error e, [OsCall.openFile options.portName, OsCall.fcntl fd]) := by
    intro e he
    rcases openInternal_cases options env with
      ⟨err, henv, heq⟩ |
      ⟨g, henv, ⟨err, hflag, heq⟩ | ⟨hflag, -⟩⟩
    · rw [hopen] at henv
      exact Except.noConfusion henv
    · have hg : g = fd := by
        have := henv.symm.trans hopen
        exact (Except.ok.injEq _ _).mp this
      subst hg
      have he2 : err = e := by
        have := hflag.symm.trans he
        exact (Except.error.injEq _ _).mp this
      subst he2
      exact heq
    · rw [he] at hflag
      exact Except.noConfusion hflag
  refine ⟨?_, hflagiff, fun h => by simp [clearNonBlockingFlag, h],
          fun h h1 => by simp [clearNonBlockingFlag, h, h1], htail⟩
  rcases openInternal_cases options env with
    ⟨err, henv, heq⟩ |
    ⟨g, henv, ⟨err, hflag, heq⟩ | ⟨hflag, ⟨err, hcv, heq⟩ | ⟨t, hcv,
      ⟨err, hset, heq⟩ | ⟨hset, heq⟩⟩⟩⟩
  · rw [hopen] at henv
    exact Except.noConfusion henv
  all_goals
    have hg : g = fd := by
      have := henv.symm.trans hopen
      exact (Except.ok.injEq _ _).mp this
  all_goals subst hg
  all_goals rw [heq]
  all_goals rfl

/-- C9 witness: open succeeds on descriptor 3, the flag call reports
errno 5, and the sequence returns the wrapped syscall error. -/
theorem C9_flag_clear_step_witness :
    (openInternal { portName := "/dev/cu.usbserial", baudRate := 9600, dataBits := 8 }
        { openResult := .ok 3, fcntlR1 := 0, fcntlErrno := 5,
          ioctlR1 := 0, ioctlErrno := 0 }).2.take 2
      = [OsCall.openFile "/dev/cu.usbserial", OsCall.fcntl 3] :=
  (C9_flag_clear_step
    { portName := "/dev/cu.usbserial", baudRate := 9600, dataBits := 8 }
    { openResult := .ok 3, fcntlR1 := 0, fcntlErrno := 5,
      ioctlR1 := 0, ioctlErrno := 0 } 3 rfl).1

/-- All control characters of `fixedCC` other than the `VMIN` and
`VTIME` entries are zero. -/
theorem fixedCC_frame :
    ∀ i ∈ List.range NCCS, i ≠ VMIN → i ≠ VTIME → fixedCC.get? i = some 0 := by
  decide

/-- C10 (frame): every record `convertOptions` returns keeps its
output-flags and local-flags fields at zero, has exactly `NCCS` control
characters, and every control character other than the ones at indices
`VMIN` and `VTIME` is zero (`VTIME`'s is also zero; `VMIN`'s is 1). -/
theorem C10_untouched_fields_zero (options : OpenOptions) (t : termios)
    (h : convertOptions options = .ok t) :
    t.c_oflag = 0 ∧ t.c_lflag = 0 ∧ t.c_cc.length = NCCS ∧
    (∀ i ∈ List.range NCCS, i ≠ VMIN → i ≠ VTIME → t.c_cc.get? i = some 0) := by
  obtain ⟨-, -, rfl⟩ := convertOptions_ok options t h
  exact ⟨rfl, rfl, rfl, fixedCC_frame⟩

/-- C10 witness at 230400/5. -/
theorem C10_untouched_fields_zero_witness :
    ∃ t, convertOptions { portName := "/dev/cu.usbserial", baudRate := 230400, dataBits := 5 }
        = .ok t ∧
      t.c_oflag = 0 ∧ t.c_lflag = 0 ∧ t.c_cc.length = NCCS ∧
      (∀ i ∈ List.range NCCS, i ≠ VMIN → i ≠ VTIME → t.c_cc.get? i = some 0) :=
  ⟨_, convertOptions_eq_ok "/dev/cu.usbserial" 230400 5 (by decide) (by decide),
   C10_untouched_fields_zero
     { portName := "/dev/cu.usbserial", baudRate := 230400, dataBits := 5 } _
     (convertOptions_eq_ok "/dev/cu.usbserial" 230400 5 (by decide) (by decide))⟩

end Serial
